import Mathlib

/-!
Verification of the voice2machine core against its specification.

Each Rust component the claims touch is shallowly embedded as Lean
definitions: `u64`/`usize` counters become `Nat` (no operation here gets
near the wrap boundary and the claims are insensitive to the branch taken
on wrapped comparisons), `f32` sample values become `ℝ`, and fallible or
effectful code is modelled by explicit state passing plus oracles for the
external world (network, audio device, transcriber).

Sources embedded:
- apps/capture/src-tauri/src/vad/state_machine.rs  (VadStateMachine)
- apps/capture/src-tauri/src/vad/detector.rs       (VadDetector)
- apps/capture/src-tauri/src/vad/buffer.rs         (SpeechBuffer)
- apps/capture/src-tauri/src/config/settings.rs    (VadConfig, RecordingState)
- apps/capture/src-tauri/src/audio/resampler.rs    (AudioResampler)
- apps/capture/src-tauri/src/pipeline/orchestrator.rs (run_recording_pipeline)
- apps/frontend/src-tauri/src/lib.rs               (socket_path, send_json_request)
- apps/daemon/backend/src/v2m_engine/src/lib.rs    (SharedBufferState/SharedAudioBuffer)
- apps/backend/src/v2m_engine/src/lib.rs           (AudioRecorder::stop resampler params)
-/

namespace V2M

/-! ## Configuration (config/settings.rs) -/

/-- `VadConfig` from settings.rs.  `threshold` and `energy_fallback_threshold`
are `f32` in the source and are modelled as reals; the durations are `u64`. -/
structure VadConfig where
  threshold : ℝ
  min_speech_duration_ms : ℕ
  min_silence_duration_ms : ℕ
  speech_pad_ms : ℕ
  energy_fallback_threshold : ℝ

/-- `impl Default for VadConfig` in settings.rs. -/
def VadConfig.default : VadConfig :=
  { threshold := 0.35
    min_speech_duration_ms := 150
    min_silence_duration_ms := 800
    speech_pad_ms := 300
    energy_fallback_threshold := 0.005 }

/-! ## VAD state machine (vad/state_machine.rs) -/

/-- `VadState` from state_machine.rs. -/
inductive VadState where
  | idle : VadState
  | speechPending (started_at_ms : ℕ) : VadState
  | speechActive : VadState
  | silencePending (started_at_ms : ℕ) : VadState
deriving DecidableEq, Repr

/-- `VadEvent` from state_machine.rs. -/
inductive VadEvent where
  | none : VadEvent
  | speechStarted : VadEvent
  | speechEnded : VadEvent
  | maxDurationReached : VadEvent
deriving DecidableEq, Repr

/-- `VadStateMachine` from state_machine.rs. -/
structure VadStateMachine where
  state : VadState
  config : VadConfig
  current_time_ms : ℕ

/-- `VadStateMachine::new`. -/
def VadStateMachine.new (config : VadConfig) : VadStateMachine :=
  { state := VadState.idle, config := config, current_time_ms := 0 }

/-- `VadStateMachine::process` (state_machine.rs lines 74-156).
The clock advance `self.current_time_ms += chunk_duration_ms` is performed
first; `elapsed = now - started_at` uses truncated subtraction, matching
`u64` subtraction on the reachable states where `started_at ≤ now`. -/
def VadStateMachine.process (m : VadStateMachine) (is_speech : Bool)
    (chunk_duration_ms : ℕ) : VadStateMachine × VadEvent :=
  let now := m.current_time_ms + chunk_duration_ms
  match m.state with
  | VadState.idle =>
    if is_speech then
      ({ m with state := VadState.speechPending now, current_time_ms := now },
       VadEvent.none)
    else
      ({ m with state := VadState.idle, current_time_ms := now }, VadEvent.none)
  | VadState.speechPending started_at_ms =>
    if is_speech then
      if m.config.min_speech_duration_ms ≤ now - started_at_ms then
        ({ m with state := VadState.speechActive, current_time_ms := now },
         VadEvent.speechStarted)
      else
        ({ m with state := VadState.speechPending started_at_ms,
                  current_time_ms := now }, VadEvent.none)
    else
      ({ m with state := VadState.idle, current_time_ms := now }, VadEvent.none)
  | VadState.speechActive =>
    if is_speech then
      ({ m with state := VadState.speechActive, current_time_ms := now },
       VadEvent.none)
    else
      ({ m with state := VadState.silencePending now, current_time_ms := now },
       VadEvent.none)
  | VadState.silencePending started_at_ms =>
    if is_speech then
      ({ m with state := VadState.speechActive, current_time_ms := now },
       VadEvent.none)
    else
      if m.config.min_silence_duration_ms ≤ now - started_at_ms then
        ({ m with state := VadState.idle, current_time_ms := now },
         VadEvent.speechEnded)
      else
        ({ m with state := VadState.silencePending started_at_ms,
                  current_time_ms := now }, VadEvent.none)

/-- `VadStateMachine::is_capturing`. -/
def VadStateMachine.is_capturing (m : VadStateMachine) : Bool :=
  match m.state with
  | VadState.speechActive => true
  | VadState.silencePending _ => true
  | _ => false

/-- `VadStateMachine::reset`. -/
def VadStateMachine.reset (m : VadStateMachine) : VadStateMachine :=
  { m with state := VadState.idle, current_time_ms := 0 }

/-- `VadStateMachine::force_end` (state_machine.rs lines 178-185). -/
def VadStateMachine.force_end (m : VadStateMachine) : VadStateMachine × VadEvent :=
  if m.is_capturing then
    ({ m with state := VadState.idle }, VadEvent.maxDurationReached)
  else
    (m, VadEvent.none)

/-- Run a sequence of `process` calls, collecting the emitted events. -/
def VadStateMachine.run (m : VadStateMachine) :
    List (Bool × ℕ) → VadStateMachine × List VadEvent
  | [] => (m, [])
  | (s, d) :: rest =>
    let p := m.process s d
    let r := p.1.run rest
    (r.1, p.2 :: r.2)

/-- The significant (non-`None`) events of a trace. -/
def sigEvents (evs : List VadEvent) : List VadEvent :=
  evs.filter fun e => decide (e ≠ VadEvent.none)

theorem process_event_cases (m : VadStateMachine) (s : Bool) (d : ℕ) :
    ((m.process s d).2 = VadEvent.none ∧
      (m.process s d).1.is_capturing = m.is_capturing) ∨
    ((m.process s d).2 = VadEvent.speechStarted ∧
      m.is_capturing = false ∧ (m.process s d).1.is_capturing = true) ∨
    ((m.process s d).2 = VadEvent.speechEnded ∧
      m.is_capturing = true ∧ (m.process s d).1.is_capturing = false) := by
  rcases m with ⟨st, cfg, t⟩
  cases st <;> cases s <;>
    simp [VadStateMachine.process, VadStateMachine.is_capturing] <;>
    (split <;> simp)

theorem run_cons (m : VadStateMachine) (s : Bool) (d : ℕ) (tl : List (Bool × ℕ)) :
    m.run ((s, d) :: tl) =
      (((m.process s d).1.run tl).1,
        (m.process s d).2 :: ((m.process s d).1.run tl).2) := rfl

theorem sigEvents_cons_sig (e : VadEvent) (evs : List VadEvent)
    (h : decide (e ≠ VadEvent.none) = true) :
    sigEvents (e :: evs) = e :: sigEvents evs := by
  simp only [sigEvents, List.filter_cons, h, if_true]

theorem sigEvents_cons_none (evs : List VadEvent) :
    sigEvents (VadEvent.none :: evs) = sigEvents evs := by
  simp [sigEvents, List.filter_cons]

/-- Generalized alternation invariant: if the machine's capturing flag agrees
with the parity of the number of significant events emitted so far (`k`), the
events emitted by any further run alternate, continuing that parity. -/
theorem run_sig_alternation (l : List (Bool × ℕ)) :
    ∀ (m : VadStateMachine) (k : ℕ),
      m.is_capturing = decide (k % 2 = 1) →
      (∀ i, i < (sigEvents (m.run l).2).length →
          (sigEvents (m.run l).2).get? i =
            some (if (k + i) % 2 = 0 then VadEvent.speechStarted
                  else VadEvent.speechEnded)) ∧
      (m.run l).1.is_capturing =
        decide ((k + (sigEvents (m.run l).2).length) % 2 = 1) := by
  induction l with
  | nil =>
    intro m k hk
    refine ⟨?_, ?_⟩
    · intro i hi
      simp [VadStateMachine.run, sigEvents] at hi
    · simpa [VadStateMachine.run, sigEvents] using hk
  | cons hd tl ih =>
    intro m k hk
    obtain ⟨s, d⟩ := hd
    rcases process_event_cases m s d with ⟨he, hc⟩ | ⟨he, hb, hc⟩ | ⟨he, hb, hc⟩
    · have hmain := ih (m.process s d).1 k (hc.trans hk)
      refine ⟨?_, ?_⟩
      · intro i hi
        rw [run_cons, he, sigEvents_cons_none] at hi ⊢
        exact hmain.1 i hi
      · rw [run_cons, he, sigEvents_cons_none]
        exact hmain.2
    · have hk0 : k % 2 = 0 := by
        rw [hb] at hk
        rcases Nat.mod_two_eq_zero_or_one k with h | h
        · exact h
        · simp [h] at hk
      have hk1 : (k + 1) % 2 = 1 := by omega
      have hcap : (m.process s d).1.is_capturing = decide ((k + 1) % 2 = 1) := by
        rw [hc, hk1]
        simp
      have hmain := ih (m.process s d).1 (k + 1) hcap
      refine ⟨?_, ?_⟩
      · intro i hi
        rw [run_cons, he, sigEvents_cons_sig _ _ (by decide)] at hi ⊢
        cases i with
        | zero =>
          simp [hk0]
        | succ j =>
          have hj : j < (sigEvents ((m.process s d).1.run tl).2).length := by
            simpa using hi
          have hg := hmain.1 j hj
          rw [List.get?_cons_succ, hg]
          have harith : k + 1 + j = k + (j + 1) := by omega
          rw [harith]
      · rw [run_cons, he, sigEvents_cons_sig _ _ (by decide), List.length_cons]
        have harith : k + ((sigEvents ((m.process s d).1.run tl).2).length + 1)
            = k + 1 + (sigEvents ((m.process s d).1.run tl).2).length := by omega
        rw [harith]
        exact hmain.2
    · have hk1 : k % 2 = 1 := by
        rw [hb] at hk
        rcases Nat.mod_two_eq_zero_or_one k with h | h
        · simp [h] at hk
        · exact h
      have hk0 : (k + 1) % 2 = 0 := by omega
      have hcap : (m.process s d).1.is_capturing = decide ((k + 1) % 2 = 1) := by
        rw [hc, hk0]
        simp
      have hmain := ih (m.process s d).1 (k + 1) hcap
      refine ⟨?_, ?_⟩
      · intro i hi
        rw [run_cons, he, sigEvents_cons_sig _ _ (by decide)] at hi ⊢
        cases i with
        | zero =>
          simp [hk1]
        | succ j =>
          have hj : j < (sigEvents ((m.process s d).1.run tl).2).length := by
            simpa using hi
          have hg := hmain.1 j hj
          rw [List.get?_cons_succ, hg]
          have harith : k + 1 + j = k + (j + 1) := by omega
          rw [harith]
      · rw [run_cons, he, sigEvents_cons_sig _ _ (by decide), List.length_cons]
        have harith : k + ((sigEvents ((m.process s d).1.run tl).2).length + 1)
            = k + 1 + (sigEvents ((m.process s d).1.run tl).2).length := by omega
        rw [harith]
        exact hmain.2

/-- The significant events of a run from the initial machine. -/
def runSig (cfg : VadConfig) (l : List (Bool × ℕ)) : List VadEvent :=
  sigEvents ((VadStateMachine.new cfg).run l).2

/-- C1: for every finite sequence of `process` calls from the initial `Idle`
state (no interleaved `reset`/`force_end`), the significant events strictly
alternate `SpeechStarted, SpeechEnded, SpeechStarted, …` (so the first one, if
any, is `SpeechStarted`), and at every intermediate point of the run — i.e.
after any prefix `l₁` — `is_capturing` is true exactly when the number of
significant events emitted so far is odd, that is, exactly after a
`SpeechStarted` and before the following `SpeechEnded`. -/
theorem vad_state_machine_alternation (cfg : VadConfig) (l₁ l₂ : List (Bool × ℕ)) :
    (∀ i, i < (runSig cfg (l₁ ++ l₂)).length →
        (runSig cfg (l₁ ++ l₂)).get? i =
          some (if i % 2 = 0 then VadEvent.speechStarted
                else VadEvent.speechEnded)) ∧
    ((VadStateMachine.new cfg).run l₁).1.is_capturing =
      decide ((runSig cfg l₁).length % 2 = 1) := by
  have h0 : (VadStateMachine.new cfg).is_capturing = decide (0 % 2 = 1) := by
    simp [VadStateMachine.new, VadStateMachine.is_capturing]
  have hfull := run_sig_alternation (l₁ ++ l₂) (VadStateMachine.new cfg) 0 h0
  have hpre := run_sig_alternation l₁ (VadStateMachine.new cfg) 0 h0
  refine ⟨?_, ?_⟩
  · intro i hi
    have hg := hfull.1 i (by simpa [runSig] using hi)
    simpa [runSig] using hg
  · simpa [runSig] using hpre.2

/-- Example trace confirming speech, then confirming silence. -/
def demoPrefix : List (Bool × ℕ) := [(true, 50), (true, 150)]

/-- Continuation of `demoPrefix` that confirms end of speech. -/
def demoSuffix : List (Bool × ℕ) := [(false, 50), (false, 800)]

theorem vad_state_machine_alternation_witness :
    (runSig VadConfig.default (demoPrefix ++ demoSuffix)).get? 0 =
      some VadEvent.speechStarted ∧
    ((VadStateMachine.new VadConfig.default).run demoPrefix).1.is_capturing =
      decide ((runSig VadConfig.default demoPrefix).length % 2 = 1) := by
  have h := vad_state_machine_alternation VadConfig.default demoPrefix demoSuffix
  exact ⟨by simpa using h.1 0 (by decide), h.2⟩

/-- C10: `force_end` in a non-capturing state (`Idle` or `SpeechPending`)
returns `VadEvent::None` and leaves the machine — state and accumulated clock
— unchanged; it returns `MaxDurationReached` and transitions to `Idle`
exactly from `SpeechActive` or `SilencePending`. -/
theorem vad_force_end_spec (m : VadStateMachine) :
    (m.is_capturing = false → m.force_end = (m, VadEvent.none)) ∧
    (m.force_end.2 = VadEvent.maxDurationReached ↔
      m.state = VadState.speechActive ∨ ∃ t, m.state = VadState.silencePending t) ∧
    (m.is_capturing = true →
      m.force_end.1.state = VadState.idle ∧
      m.force_end.1.current_time_ms = m.current_time_ms ∧
      m.force_end.2 = VadEvent.maxDurationReached) := by
  rcases m with ⟨st, cfg, t⟩
  cases st <;> simp [VadStateMachine.force_end, VadStateMachine.is_capturing]

/-- A machine in the `SpeechActive` state with a nonzero clock. -/
def demoActive : VadStateMachine :=
  { state := VadState.speechActive, config := VadConfig.default,
    current_time_ms := 123 }

theorem vad_force_end_spec_witness :
    demoActive.force_end.1.state = VadState.idle ∧
    demoActive.force_end.1.current_time_ms = 123 ∧
    demoActive.force_end.2 = VadEvent.maxDurationReached :=
  (vad_force_end_spec demoActive).2.2 rfl

/-! ## VAD detector (vad/detector.rs)

Sample values are `f32` in the source and are modelled as reals; the Silero
model behind `voice_activity_detector::VoiceActivityDetector` is external and
is modelled as an uninterpreted function from the converted `i16` samples to a
probability. -/

/-- `VadMethod` from detector.rs. -/
inductive VadMethod where
  | silero : VadMethod
  | energy : VadMethod
deriving DecidableEq, Repr

/-- `VadResult` from detector.rs. -/
structure VadResult where
  probability : ℝ
  is_speech : Bool
  method : VadMethod

/-- Truncation toward zero: the semantics of Rust `as i16` applied to an
`f32` already clamped into the representable range. -/
noncomputable def truncToInt (x : ℝ) : ℤ := if 0 ≤ x then ⌊x⌋ else ⌈x⌉

/-- Rust `f32::clamp(lo, hi)` for `lo ≤ hi`. -/
noncomputable def rustClamp (x lo hi : ℝ) : ℝ := min (max x lo) hi

/-- `VadDetector` from detector.rs; `silero_predict` stands for the external
stateless view of `self.detector.predict`. -/
structure VadDetector where
  silero_predict : List ℤ → ℝ
  config : VadConfig

/-- `VadDetector::predict_energy` (detector.rs lines 75-98). -/
noncomputable def VadDetector.predict_energy (dt : VadDetector)
    (samples : List ℝ) : VadResult :=
  if samples.isEmpty then
    { probability := 0, is_speech := false, method := VadMethod.energy }
  else
    { probability :=
        rustClamp
          (Real.sqrt ((samples.map fun s => s * s).sum / (samples.length : ℝ)) / 0.15)
          0 1
      is_speech :=
        decide (dt.config.energy_fallback_threshold <
          Real.sqrt ((samples.map fun s => s * s).sum / (samples.length : ℝ)))
      method := VadMethod.energy }

/-- `VadDetector::predict` (detector.rs lines 51-71). -/
noncomputable def VadDetector.predict (dt : VadDetector)
    (samples : List ℝ) : VadResult :=
  if samples.length < 512 then
    dt.predict_energy samples
  else
    { probability := dt.silero_predict
        (samples.map fun s => truncToInt (rustClamp s (-1) 1 * 32767))
      is_speech := decide (dt.config.threshold <
        dt.silero_predict (samples.map fun s => truncToInt (rustClamp s (-1) 1 * 32767)))
      method := VadMethod.silero }

theorem rustClamp_zero_one (x : ℝ) : rustClamp x 0 1 = max 0 (min x 1) := by
  unfold rustClamp
  rcases le_total x 0 with h | h
  · rw [max_eq_right h, min_eq_left (by norm_num : (0:ℝ) ≤ 1),
        min_eq_left (h.trans (by norm_num)), max_eq_left h]
  · rw [max_eq_left h, max_eq_right (le_min h (by norm_num))]

/-- C9: `predict` on an empty input slice returns probability `0.0`,
`is_speech = false` and `method = Energy`, without reaching the RMS formula
(whose mean would divide by zero); `predict` is total over all input
lengths by construction. -/
theorem vad_predict_empty (dt : VadDetector) :
    dt.predict [] =
      { probability := 0, is_speech := false, method := VadMethod.energy } := by
  simp [VadDetector.predict, VadDetector.predict_energy]

/-- C6: for every non-empty input shorter than the 512-sample model window,
`predict` takes the energy fallback: probability is
`clamp(rms / 0.15, 0, 1)` with `rms = sqrt(mean of squared samples)`,
`is_speech` is `rms > energy_fallback_threshold`, and `method = Energy`;
the default `energy_fallback_threshold` is `0.005`. -/
theorem vad_predict_energy_fallback (dt : VadDetector) (samples : List ℝ)
    (hne : samples ≠ []) (hlen : samples.length < 512) :
    dt.predict samples =
      { probability :=
          max 0 (min
            (Real.sqrt ((samples.map fun s => s * s).sum / (samples.length : ℝ)) / 0.15)
            1)
        is_speech :=
          decide (dt.config.energy_fallback_threshold <
            Real.sqrt ((samples.map fun s => s * s).sum / (samples.length : ℝ)))
        method := VadMethod.energy } ∧
    VadConfig.default.energy_fallback_threshold = 0.005 := by
  refine ⟨?_, rfl⟩
  rw [VadDetector.predict, if_pos hlen, VadDetector.predict_energy,
      if_neg (by simpa using hne)]
  rw [rustClamp_zero_one]

/-- A concrete detector with an arbitrary model oracle and default config. -/
noncomputable def demoDetector : VadDetector :=
  { silero_predict := fun _ => 0, config := VadConfig.default }

theorem vad_predict_energy_fallback_witness :
    demoDetector.predict [1] =
      { probability :=
          max 0 (min
            (Real.sqrt (((([(1:ℝ)]).map fun s => s * s).sum / ((([(1:ℝ)]).length : ℕ) : ℝ)) ) / 0.15)
            1)
        is_speech :=
          decide (demoDetector.config.energy_fallback_threshold <
            Real.sqrt ((([(1:ℝ)]).map fun s => s * s).sum / ((([(1:ℝ)]).length : ℕ) : ℝ)))
        method := VadMethod.energy } ∧
    VadConfig.default.energy_fallback_threshold = 0.005 :=
  vad_predict_energy_fallback demoDetector [1] (by simp) (by simp)

/-! ## Speech buffer (vad/buffer.rs) -/

/-- `SpeechBuffer` from buffer.rs.  The `AllocRingBuffer` for pre-speech is
modelled as the list of its current contents together with its capacity. -/
structure SpeechBuffer where
  pre_speech : List ℝ
  pre_speech_capacity : ℕ
  speech : List ℝ
  max_speech_samples : ℕ
  sample_rate : ℕ

/-- `SpeechBuffer::new`, given the derived sample counts (the source computes
them from durations in floating point before constructing the buffer; the
ring capacity is `pre_speech_samples.max(1)`). -/
def SpeechBuffer.new (sample_rate pre_speech_samples max_speech_samples : ℕ) :
    SpeechBuffer :=
  { pre_speech := []
    pre_speech_capacity := max pre_speech_samples 1
    speech := []
    max_speech_samples := max_speech_samples
    sample_rate := sample_rate }

/-- `SpeechBuffer::push_pre_speech`: ring extend keeps the newest
`pre_speech_capacity` samples. -/
def SpeechBuffer.push_pre_speech (b : SpeechBuffer) (samples : List ℝ) :
    SpeechBuffer :=
  let all := b.pre_speech ++ samples
  { b with pre_speech := all.drop (all.length - b.pre_speech_capacity) }

/-- `SpeechBuffer::start_speech`: clear `speech` and copy the pre-roll in. -/
def SpeechBuffer.start_speech (b : SpeechBuffer) : SpeechBuffer :=
  { b with speech := b.pre_speech }

/-- `SpeechBuffer::push_speech` (buffer.rs lines 68-74). -/
def SpeechBuffer.push_speech (b : SpeechBuffer) (samples : List ℝ) :
    SpeechBuffer :=
  let remaining := b.max_speech_samples - b.speech.length
  if 0 < remaining then
    { b with speech := b.speech ++ samples.take (min samples.length remaining) }
  else b

/-- `SpeechBuffer::end_speech` returns the accumulated samples and clears. -/
def SpeechBuffer.end_speech (b : SpeechBuffer) : SpeechBuffer × List ℝ :=
  ({ b with speech := [] }, b.speech)

/-- `SpeechBuffer::is_at_capacity` (buffer.rs lines 88-90). -/
def SpeechBuffer.is_at_capacity (b : SpeechBuffer) : Bool :=
  decide (b.max_speech_samples ≤ b.speech.length)

/-- Iterated `push_speech` over a sequence of calls. -/
def SpeechBuffer.push_speech_all (b : SpeechBuffer) :
    List (List ℝ) → SpeechBuffer
  | [] => b
  | s :: rest => (b.push_speech s).push_speech_all rest

theorem push_speech_speech (b : SpeechBuffer) (samples : List ℝ) :
    (b.push_speech samples).speech =
      b.speech ++
        samples.take (min samples.length (b.max_speech_samples - b.speech.length)) := by
  simp only [SpeechBuffer.push_speech]
  split
  · rfl
  · next h =>
    have h0 : b.max_speech_samples - b.speech.length = 0 := by omega
    simp [h0]

theorem push_speech_max (b : SpeechBuffer) (samples : List ℝ) :
    (b.push_speech samples).max_speech_samples = b.max_speech_samples := by
  simp only [SpeechBuffer.push_speech]
  split <;> rfl

theorem push_speech_len_le (b : SpeechBuffer) (samples : List ℝ)
    (hb : b.speech.length ≤ b.max_speech_samples) :
    (b.push_speech samples).speech.length ≤ b.max_speech_samples := by
  rw [push_speech_speech]
  simp only [List.length_append, List.length_take]
  omega

theorem push_speech_all_le (calls : List (List ℝ)) :
    ∀ b : SpeechBuffer, b.speech.length ≤ b.max_speech_samples →
      (b.push_speech_all calls).speech.length ≤ b.max_speech_samples ∧
      (b.push_speech_all calls).max_speech_samples = b.max_speech_samples := by
  induction calls with
  | nil => intro b hb; exact ⟨hb, rfl⟩
  | cons s rest ih =>
    intro b hb
    have h1 := push_speech_len_le b s hb
    have h2 := push_speech_max b s
    have := ih (b.push_speech s) (by rw [h2]; exact h1)
    exact ⟨by rw [SpeechBuffer.push_speech_all]; rw [h2] at this; exact this.1,
           by rw [SpeechBuffer.push_speech_all]; rw [this.2, h2]⟩

/-- C8: each `push_speech` appends exactly
`min(input length, max_speech_samples − current length)` samples (the leading
ones, in order; the excess is dropped), across any sequence of calls the
accumulated length never exceeds `max_speech_samples`, and `is_at_capacity`
holds exactly when the accumulated length has reached `max_speech_samples`. -/
theorem speech_buffer_capacity (b : SpeechBuffer) (samples : List ℝ)
    (calls : List (List ℝ)) (hb : b.speech.length ≤ b.max_speech_samples) :
    (b.push_speech samples).speech =
      b.speech ++
        samples.take (min samples.length (b.max_speech_samples - b.speech.length)) ∧
    (b.push_speech_all calls).speech.length ≤ b.max_speech_samples ∧
    (b.is_at_capacity = true ↔ b.speech.length = b.max_speech_samples) := by
  refine ⟨push_speech_speech b samples, (push_speech_all_le calls b hb).1, ?_⟩
  rw [SpeechBuffer.is_at_capacity]
  simp only [decide_eq_true_eq]
  omega

/-- A small concrete speech buffer (capacity 3 samples). -/
def demoBuffer : SpeechBuffer := SpeechBuffer.new 16000 8000 3

/-- A concrete chunk longer than `demoBuffer`'s remaining quota. -/
def demoSamples : List ℝ := [0.1, 0.2, 0.3, 0.4]

theorem speech_buffer_capacity_witness :
    (demoBuffer.push_speech demoSamples).speech =
      demoBuffer.speech ++
        demoSamples.take
          (min demoSamples.length
            (demoBuffer.max_speech_samples - demoBuffer.speech.length)) ∧
    (demoBuffer.push_speech_all [demoSamples]).speech.length ≤
      demoBuffer.max_speech_samples ∧
    (demoBuffer.is_at_capacity = true ↔
      demoBuffer.speech.length = demoBuffer.max_speech_samples) :=
  speech_buffer_capacity demoBuffer demoSamples [demoSamples] (by decide)

/-! ## Resampler construction parameters (audio/resampler.rs and the
v2m_engine backends) -/

/-- `rubato::SincInterpolationType`, restricted to the variants that appear. -/
inductive SincInterpolationType where
  | linear : SincInterpolationType
  | cubic : SincInterpolationType
  | quadratic : SincInterpolationType
  | nearest : SincInterpolationType
deriving DecidableEq, Repr

/-- `rubato::WindowFunction`, restricted to the variants that appear. -/
inductive WindowFunction where
  | blackman : WindowFunction
  | blackmanHarris : WindowFunction
  | blackmanHarris2 : WindowFunction
  | hann : WindowFunction
deriving DecidableEq, Repr

/-- `rubato::SincInterpolationParameters`.  `f_cutoff` is an `f32` literal at
every construction site and is modelled as a rational. -/
structure SincInterpolationParameters where
  sinc_len : ℕ
  f_cutoff : ℚ
  interpolation : SincInterpolationType
  oversampling_factor : ℕ
  window : WindowFunction
deriving DecidableEq, Repr

/-- Sample rate required by Whisper (resampler.rs). -/
def WHISPER_SAMPLE_RATE : ℕ := 16000

/-- The parameter literal at the capture app's construction site
(audio/resampler.rs lines 37-43). -/
def captureResamplerParams : SincInterpolationParameters :=
  { sinc_len := 64
    f_cutoff := 0.95
    interpolation := SincInterpolationType.linear
    oversampling_factor := 128
    window := WindowFunction.blackmanHarris2 }

/-- `AudioResampler::new` builds a sinc resampler only when the input rate
differs from 16 kHz; this returns the parameters it is configured with. -/
def AudioResampler.new_params (input_sample_rate : ℕ) :
    Option SincInterpolationParameters :=
  if input_sample_rate ≠ WHISPER_SAMPLE_RATE then some captureResamplerParams
  else none

/-- The parameter literal at both backend engine construction sites
(`AudioRecorder::stop` in apps/backend and apps/daemon/backend,
v2m_engine lib.rs). -/
def engineResamplerParams : SincInterpolationParameters :=
  { sinc_len := 256
    f_cutoff := 0.95
    interpolation := SincInterpolationType.linear
    oversampling_factor := 256
    window := WindowFunction.blackmanHarris2 }

/-- The single parameter set the spec's ResamplerState entry prescribes for
every resampler instance, written from the spec's words for comparison. -/
def specResamplerParams : SincInterpolationParameters :=
  { sinc_len := 256
    f_cutoff := 0.95
    interpolation := SincInterpolationType.linear
    oversampling_factor := 256
    window := WindowFunction.blackmanHarris2 }

/-- C5 counterexample: the resampler the capture app constructs for a 48 kHz
device is configured with `sinc_len = 64` and `oversampling_factor = 128`,
not the `256`/`256` the claim asserts for every instance. -/
theorem capture_resampler_params_ne_spec :
    AudioResampler.new_params 48000 = some captureResamplerParams ∧
    captureResamplerParams ≠ specResamplerParams ∧
    captureResamplerParams.sinc_len = 64 ∧
    captureResamplerParams.oversampling_factor = 128 := by
  refine ⟨rfl, ?_, rfl, rfl⟩
  intro h
  have hl := congrArg SincInterpolationParameters.sinc_len h
  simp [captureResamplerParams, specResamplerParams] at hl

/-- C5 (amended): the backend engine resamplers are configured exactly with
`sinc_len = 256`, `f_cutoff = 0.95`, oversampling `256`, Blackman-Harris-2
window and linear interpolation; the capture app's resampler (created only
when the input rate differs from 16 kHz) shares the cutoff, window and
interpolation but uses `sinc_len = 64` and oversampling `128`. -/
theorem resampler_params_spec :
    engineResamplerParams = specResamplerParams ∧
    AudioResampler.new_params 48000 = some captureResamplerParams ∧
    AudioResampler.new_params 16000 = none ∧
    captureResamplerParams.sinc_len = 64 ∧
    captureResamplerParams.oversampling_factor = 128 ∧
    captureResamplerParams.f_cutoff = specResamplerParams.f_cutoff ∧
    captureResamplerParams.interpolation = specResamplerParams.interpolation ∧
    captureResamplerParams.window = specResamplerParams.window :=
  ⟨rfl, rfl, rfl, rfl, rfl, rfl, rfl, rfl⟩

/-! ## Shared-memory audio buffer (apps/daemon/backend v2m_engine lib.rs) -/

/-- The mutable state shared by `SharedAudioBuffer` and `SharedBufferState`:
an atomic write cursor and finalized flag over a region of fixed capacity. -/
structure SharedBufferState where
  capacity : ℕ
  write_pos : ℕ
  is_finalized : Bool
deriving DecidableEq, Repr

/-- `SharedAudioBuffer::new_internal`: fresh region, cursor 0, not final. -/
def SharedBufferState.new (capacity_samples : ℕ) : SharedBufferState :=
  { capacity := capacity_samples, write_pos := 0, is_finalized := false }

/-- `SharedBufferState::write_samples` (lib.rs lines 332-355): returns the
updated state and the number of samples written.  Only the length of the
sample slice is relevant to the cursor arithmetic. -/
def SharedBufferState.write_samples (st : SharedBufferState)
    (samples_len : ℕ) : SharedBufferState × ℕ :=
  if st.is_finalized then (st, 0)
  else
    let samples_to_write := min samples_len (st.capacity - st.write_pos)
    if samples_to_write = 0 then (st, 0)
    else ({ st with write_pos := st.write_pos + samples_to_write },
          samples_to_write)

/-- `SharedAudioBuffer::reset` (lib.rs lines 402-405). -/
def SharedBufferState.reset (st : SharedBufferState) : SharedBufferState :=
  { st with write_pos := 0, is_finalized := false }

/-- `SharedAudioBuffer::finalize` (lib.rs lines 408-410). -/
def SharedBufferState.finalize (st : SharedBufferState) : SharedBufferState :=
  { st with is_finalized := true }

/-- The operations that mutate the shared region. -/
inductive ShmOp where
  | write (samples_len : ℕ) : ShmOp
  | finalize : ShmOp
  | reset : ShmOp
deriving DecidableEq, Repr

/-- Apply one operation to the region state. -/
def SharedBufferState.apply (st : SharedBufferState) : ShmOp → SharedBufferState
  | ShmOp.write n => (st.write_samples n).1
  | ShmOp.finalize => st.finalize
  | ShmOp.reset => st.reset

/-- Apply a sequence of operations. -/
def SharedBufferState.applyAll (st : SharedBufferState) :
    List ShmOp → SharedBufferState
  | [] => st
  | op :: rest => (st.apply op).applyAll rest

theorem write_samples_inv (st : SharedBufferState) (n : ℕ)
    (h : st.write_pos ≤ st.capacity) :
    (st.write_samples n).1.write_pos ≤ (st.write_samples n).1.capacity ∧
    (st.write_samples n).1.capacity = st.capacity := by
  simp only [SharedBufferState.write_samples]
  split
  · exact ⟨h, rfl⟩
  · split
    · exact ⟨h, rfl⟩
    · refine ⟨?_, rfl⟩
      simp only
      omega

theorem shm_apply_inv (st : SharedBufferState) (op : ShmOp)
    (h : st.write_pos ≤ st.capacity) :
    (st.apply op).write_pos ≤ (st.apply op).capacity ∧
    (st.apply op).capacity = st.capacity := by
  cases op with
  | write n => exact write_samples_inv st n h
  | finalize => exact ⟨h, rfl⟩
  | reset => exact ⟨Nat.zero_le _, rfl⟩

theorem shm_applyAll_inv (ops : List ShmOp) :
    ∀ st : SharedBufferState, st.write_pos ≤ st.capacity →
      (st.applyAll ops).write_pos ≤ (st.applyAll ops).capacity ∧
      (st.applyAll ops).capacity = st.capacity := by
  induction ops with
  | nil => intro st h; exact ⟨h, rfl⟩
  | cons op rest ih =>
    intro st h
    have h1 := shm_apply_inv st op h
    have h2 := ih (st.apply op) h1.1
    exact ⟨h2.1, h2.2.trans h1.2⟩

theorem write_samples_count (st : SharedBufferState) (n : ℕ) :
    (st.write_samples n).2 =
      if st.is_finalized then 0 else min n (st.capacity - st.write_pos) := by
  simp only [SharedBufferState.write_samples]
  split
  · simp_all
  · split
    · next hfin hz => simp [hfin, hz]
    · next hfin _ => simp [hfin]

/-- C4 counterexample: `finalized` is not monotonic over every operation on
the region — `reset` (invoked at the start of each new recording) reverts it
from true to false. -/
theorem shared_finalized_reverts :
    ((SharedBufferState.new 10).finalize).is_finalized = true ∧
    (((SharedBufferState.new 10).finalize).reset).is_finalized = false := by
  decide

/-- C4 (amended): starting from a fresh region, after any sequence of
operations `write_cursor ≤ capacity_samples`; every `write_samples` writes
exactly `min(len, capacity − cursor)` samples — in particular at most
`capacity − cursor`, and zero once finalized; and `finalized = true` is
monotonic across `write_samples` and `finalize` — only `reset`, which
reinitializes the region for a new recording, returns it to false. -/
theorem shared_buffer_invariants (capacity : ℕ) (ops : List ShmOp)
    (st : SharedBufferState) (n : ℕ) (op : ShmOp)
    (hop : op ≠ ShmOp.reset) (hfin : st.is_finalized = true) :
    ((SharedBufferState.new capacity).applyAll ops).write_pos ≤ capacity ∧
    (st.write_samples n).2 =
      (if st.is_finalized then 0 else min n (st.capacity - st.write_pos)) ∧
    (st.write_samples n).2 ≤ st.capacity - st.write_pos ∧
    (st.apply op).is_finalized = true := by
  refine ⟨?_, write_samples_count st n, ?_, ?_⟩
  · have h := shm_applyAll_inv ops (SharedBufferState.new capacity)
      (Nat.zero_le _)
    rw [h.2] at h
    exact h.1
  · rw [write_samples_count]
    split <;> omega
  · cases op with
    | write m =>
      simp [SharedBufferState.apply, SharedBufferState.write_samples, hfin]
    | finalize => rfl
    | reset => exact absurd rfl hop

theorem shared_buffer_invariants_witness :
    ((SharedBufferState.new 10).applyAll
        [ShmOp.write 4, ShmOp.finalize, ShmOp.reset, ShmOp.write 20]).write_pos
      ≤ 10 ∧
    (((SharedBufferState.new 10).finalize).write_samples 3).2 =
      (if ((SharedBufferState.new 10).finalize).is_finalized then 0
       else min 3 (((SharedBufferState.new 10).finalize).capacity -
         ((SharedBufferState.new 10).finalize).write_pos)) ∧
    (((SharedBufferState.new 10).finalize).write_samples 3).2 ≤
      ((SharedBufferState.new 10).finalize).capacity -
        ((SharedBufferState.new 10).finalize).write_pos ∧
    (((SharedBufferState.new 10).finalize).apply (ShmOp.write 5)).is_finalized
      = true :=
  shared_buffer_invariants 10 [ShmOp.write 4, ShmOp.finalize, ShmOp.reset,
    ShmOp.write 20] ((SharedBufferState.new 10).finalize) 3 (ShmOp.write 5)
    (by decide) (by decide)

/-! ## Recording pipeline termination (pipeline/orchestrator.rs)

`run_recording_pipeline` and the `tokio::spawn` wrapper in
`Pipeline::start_recording` are modelled as pure functions of the outcomes of
the external phases (capture worker, transcriber, clipboard). -/

/-- `RecordingState` from config/settings.rs. -/
inductive RecordingState where
  | idle : RecordingState
  | recording : RecordingState
  | processing : RecordingState
deriving DecidableEq, Repr

/-- `PipelineEvent` from orchestrator.rs (payload fields the claims do not
inspect are dropped). -/
inductive PipelineEvent where
  | stateChanged (state : RecordingState) : PipelineEvent
  | speechStarted : PipelineEvent
  | speechEnded (duration_ms : ℕ) : PipelineEvent
  | transcriptionComplete (text : String) : PipelineEvent
  | copiedToClipboard (text : String) : PipelineEvent
  | error (message : String) : PipelineEvent
deriving DecidableEq, Repr

/-- Outcome of the capture phase (`run_audio_capture` composed with the
`spawn_blocking` join) as observed by `run_recording_pipeline`. -/
inductive CaptureOutcome where
  | success (duration_ms : ℕ) : CaptureOutcome
  | cancelled : CaptureOutcome
  | noSpeech : CaptureOutcome
  | failed (message : String) : CaptureOutcome
deriving DecidableEq, Repr

/-- Outcome of the transcription phase (including "Transcriber no
disponible"). -/
inductive TranscribeOutcome where
  | ok (text : String) : TranscribeOutcome
  | failed (message : String) : TranscribeOutcome
deriving DecidableEq, Repr

/-- Outcome of the clipboard phase. -/
inductive ClipboardOutcome where
  | ok : ClipboardOutcome
  | initFailed (message : String) : ClipboardOutcome
  | setFailed (message : String) : ClipboardOutcome
deriving DecidableEq, Repr

/-- `run_recording_pipeline` (orchestrator.rs lines 501-613): the events it
emits, the last value it stores into the shared `RecordingState` (which the
task enters with `Recording`, set by `start_recording`), and `some msg` when
it returns `Err(msg)`. -/
def run_recording_pipeline (cap : CaptureOutcome) (tr : TranscribeOutcome)
    (clip : ClipboardOutcome) :
    List PipelineEvent × RecordingState × Option String :=
  match cap with
  | CaptureOutcome.failed msg =>
    ([PipelineEvent.speechStarted], RecordingState.recording, some msg)
  | CaptureOutcome.cancelled =>
    ([PipelineEvent.speechStarted,
      PipelineEvent.stateChanged RecordingState.idle],
     RecordingState.idle, none)
  | CaptureOutcome.noSpeech =>
    ([PipelineEvent.speechStarted,
      PipelineEvent.stateChanged RecordingState.idle],
     RecordingState.idle, none)
  | CaptureOutcome.success duration_ms =>
    match tr with
    | TranscribeOutcome.failed msg =>
      ([PipelineEvent.speechStarted, PipelineEvent.speechEnded duration_ms,
        PipelineEvent.stateChanged RecordingState.processing],
       RecordingState.processing, some msg)
    | TranscribeOutcome.ok text =>
      ([PipelineEvent.speechStarted, PipelineEvent.speechEnded duration_ms,
        PipelineEvent.stateChanged RecordingState.processing,
        PipelineEvent.transcriptionComplete text] ++
       (if text = "" then []
        else
          match clip with
          | ClipboardOutcome.ok => [PipelineEvent.copiedToClipboard text]
          | ClipboardOutcome.initFailed m =>
            [PipelineEvent.error ("Error con clipboard: " ++ m)]
          | ClipboardOutcome.setFailed m =>
            [PipelineEvent.error ("Error copiando al clipboard: " ++ m)]) ++
       [PipelineEvent.stateChanged RecordingState.idle],
       RecordingState.idle, none)

/-- What the spawned pipeline task leaves behind when it terminates. -/
structure PipelineTermination where
  events : List PipelineEvent
  final_state : RecordingState
  is_running : Bool
deriving DecidableEq, Repr

/-- The `tokio::spawn` closure in `Pipeline::start_recording` (orchestrator.rs
lines 278-301): always stores `is_running := false` and, when the task
returned `Err`, emits an `Error` event. -/
def pipelineTermination (cap : CaptureOutcome) (tr : TranscribeOutcome)
    (clip : ClipboardOutcome) : PipelineTermination :=
  let r := run_recording_pipeline cap tr clip
  { events := r.1 ++
      (match r.2.2 with
       | some msg => [PipelineEvent.error msg]
       | none => [])
    final_state := r.2.1
    is_running := false }

/-- The terminations in which the task returns `Err`. -/
def pipelineFails : CaptureOutcome → TranscribeOutcome → Bool
  | CaptureOutcome.failed _, _ => true
  | CaptureOutcome.success _, TranscribeOutcome.failed _ => true
  | _, _ => false

/-- C2 counterexample: a transcriber error ends the pipeline task with the
shared state left at `Processing` and no `StateChanged{Idle}` emitted; only
`is_running` is cleared (and an `Error` event fired). -/
theorem pipeline_error_leaves_processing :
    (pipelineTermination (CaptureOutcome.success 1500)
        (TranscribeOutcome.failed "fallo inferencia")
        ClipboardOutcome.ok).final_state = RecordingState.processing ∧
    PipelineEvent.stateChanged RecordingState.idle ∉
      (pipelineTermination (CaptureOutcome.success 1500)
        (TranscribeOutcome.failed "fallo inferencia")
        ClipboardOutcome.ok).events ∧
    (pipelineTermination (CaptureOutcome.success 1500)
        (TranscribeOutcome.failed "fallo inferencia")
        ClipboardOutcome.ok).is_running = false := by
  decide

/-- C2 (amended): every termination of the pipeline task clears `is_running`.
On success (clipboard failures included), cancel and NoSpeech it also sets
the state back to Idle and emits `StateChanged{Idle}`; on a capture or
transcriber failure it emits an `Error` event but leaves the state at
`Recording` resp. `Processing` and emits no `StateChanged{Idle}`. -/
theorem pipeline_termination_spec (cap : CaptureOutcome)
    (tr : TranscribeOutcome) (clip : ClipboardOutcome) :
    (pipelineTermination cap tr clip).is_running = false ∧
    (pipelineFails cap tr = false →
      (pipelineTermination cap tr clip).final_state = RecordingState.idle ∧
      PipelineEvent.stateChanged RecordingState.idle ∈
        (pipelineTermination cap tr clip).events) ∧
    (pipelineFails cap tr = true →
      (pipelineTermination cap tr clip).final_state ≠ RecordingState.idle ∧
      (∃ m, PipelineEvent.error m ∈ (pipelineTermination cap tr clip).events) ∧
      PipelineEvent.stateChanged RecordingState.idle ∉
        (pipelineTermination cap tr clip).events) := by
  cases cap <;> cases tr <;> cases clip <;>
    simp [pipelineTermination, run_recording_pipeline, pipelineFails]

theorem pipeline_termination_spec_witness :
    (pipelineTermination (CaptureOutcome.success 1500)
        (TranscribeOutcome.ok "hola") ClipboardOutcome.ok).is_running = false ∧
    (pipelineTermination (CaptureOutcome.success 1500)
        (TranscribeOutcome.ok "hola") ClipboardOutcome.ok).final_state =
      RecordingState.idle ∧
    PipelineEvent.stateChanged RecordingState.idle ∈
      (pipelineTermination (CaptureOutcome.success 1500)
        (TranscribeOutcome.ok "hola") ClipboardOutcome.ok).events := by
  have h := pipeline_termination_spec (CaptureOutcome.success 1500)
    (TranscribeOutcome.ok "hola") ClipboardOutcome.ok
  exact ⟨h.1, (h.2.1 rfl).1, (h.2.1 rfl).2⟩

/-! ## IPC client (apps/frontend src-tauri lib.rs)

`send_json_request` is modelled as a pure function of the serialized payload
size and an oracle for the socket layer and daemon, returning the ordered
list of socket operations actually performed together with the result. -/

/-- `MAX_RESPONSE_SIZE` = 1 MiB (lib.rs line 58). -/
def MAX_RESPONSE_SIZE : ℕ := 2 ^ 20

/-- `MAX_REQUEST_SIZE` = 10 MiB (lib.rs line 181). -/
def MAX_REQUEST_SIZE : ℕ := 10 * 1024 * 1024

/-- The socket operations the client can perform. -/
inductive SocketOp where
  | connect : SocketOp
  | setTimeout : SocketOp
  | writeHeader : SocketOp
  | writePayload : SocketOp
  | readHeader : SocketOp
  | readBody : SocketOp
deriving DecidableEq, Repr

/-- `IpcError` from lib.rs. -/
structure IpcError where
  code : String
  message : String
deriving DecidableEq, Repr

/-- Oracle for the socket layer and the daemon during one call:
which operations succeed, and the four header bytes of the response
(`none` meaning the header read itself fails). -/
structure NetBehavior where
  already_connected : Bool
  connect_ok : Bool
  set_timeout_ok : Bool
  write_header_ok : Bool
  reconnect_ok : Bool
  set_timeout_retry_ok : Bool
  write_header_retry_ok : Bool
  write_payload_ok : Bool
  read_header : Option (ℕ × ℕ × ℕ × ℕ)
  read_body_ok : Bool
  parse_ok : Bool
  status_success : Bool
  daemon_error : String

/-- `u32::from_be_bytes` on the four header bytes. -/
def u32_be (b : ℕ × ℕ × ℕ × ℕ) : ℕ :=
  ((b.1 * 256 + b.2.1) * 256 + b.2.2.1) * 256 + b.2.2.2

/-- Sequence two phases of the call, keeping the operations of a failed
phase and dropping everything after it. -/
def ipcThen (a : List SocketOp × Except IpcError Unit)
    (b : List SocketOp × Except IpcError Unit) :
    List SocketOp × Except IpcError Unit :=
  match a.2 with
  | Except.error e => (a.1, Except.error e)
  | Except.ok _ => (a.1 ++ b.1, b.2)

/-- Step 2 of `send_json_request`: connect (and set the read timeout) when
there is no persistent connection yet. -/
def ensureConnected (net : NetBehavior) : List SocketOp × Except IpcError Unit :=
  if net.already_connected then ([], Except.ok ())
  else if net.connect_ok = false then
    ([SocketOp.connect],
     Except.error { code := "IPC_ERROR", message := "Daemon not running" })
  else if net.set_timeout_ok = false then
    ([SocketOp.connect, SocketOp.setTimeout],
     Except.error { code := "IPC_ERROR", message := "Timeout config failed" })
  else ([SocketOp.connect, SocketOp.setTimeout], Except.ok ())

/-- Step 3a: write the length header, with one reconnect-and-retry on a
failed write (lib.rs lines 203-222). -/
def writeHeaderStage (net : NetBehavior) : List SocketOp × Except IpcError Unit :=
  if net.write_header_ok then ([SocketOp.writeHeader], Except.ok ())
  else if net.reconnect_ok = false then
    ([SocketOp.writeHeader, SocketOp.connect],
     Except.error { code := "IPC_ERROR", message := "Reconnect failed" })
  else if net.set_timeout_retry_ok = false then
    ([SocketOp.writeHeader, SocketOp.connect, SocketOp.setTimeout],
     Except.error { code := "IPC_ERROR", message := "Timeout config failed" })
  else if net.write_header_retry_ok = false then
    ([SocketOp.writeHeader, SocketOp.connect, SocketOp.setTimeout,
      SocketOp.writeHeader],
     Except.error { code := "IPC_ERROR", message := "Write header failed" })
  else
    ([SocketOp.writeHeader, SocketOp.connect, SocketOp.setTimeout,
      SocketOp.writeHeader], Except.ok ())

/-- Step 3b: write the JSON payload. -/
def writePayloadStage (net : NetBehavior) :
    List SocketOp × Except IpcError Unit :=
  if net.write_payload_ok then ([SocketOp.writePayload], Except.ok ())
  else
    ([SocketOp.writePayload],
     Except.error { code := "IPC_ERROR", message := "Write payload failed" })

/-- Steps 4-5: read the 4-byte header, enforce `MAX_RESPONSE_SIZE`, read the
body, deserialize, and map the daemon's status (lib.rs lines 229-262). -/
def readResponseStage (net : NetBehavior) :
    List SocketOp × Except IpcError Unit :=
  match net.read_header with
  | Option.none =>
    ([SocketOp.readHeader],
     Except.error { code := "IPC_ERROR", message := "Read header failed" })
  | Option.some b =>
    if MAX_RESPONSE_SIZE < u32_be b then
      ([SocketOp.readHeader],
       Except.error { code := "PAYLOAD_TOO_LARGE",
                      message := "Response exceeds 1 MB limit" })
    else if net.read_body_ok = false then
      ([SocketOp.readHeader, SocketOp.readBody],
       Except.error { code := "IPC_ERROR", message := "Read body failed" })
    else if net.parse_ok = false then
      ([SocketOp.readHeader, SocketOp.readBody],
       Except.error { code := "IPC_ERROR", message := "Invalid JSON response" })
    else if net.status_success then
      ([SocketOp.readHeader, SocketOp.readBody], Except.ok ())
    else
      ([SocketOp.readHeader, SocketOp.readBody],
       Except.error { code := "DAEMON_ERROR", message := net.daemon_error })

/-- `send_json_request` (lib.rs lines 167-262): serialize (abstracted to the
payload's byte length), enforce `MAX_REQUEST_SIZE` before any socket
operation, then connect/write/read as above.  The successful response value
is abstracted to `()`. -/
def send_json_request (net : NetBehavior) (payload_size : ℕ) :
    List SocketOp × Except IpcError Unit :=
  if MAX_REQUEST_SIZE < payload_size then
    ([], Except.error { code := "REQUEST_TOO_LARGE",
                        message := "Request payload exceeds 10 MB limit" })
  else
    ipcThen (ensureConnected net)
      (ipcThen (writeHeaderStage net)
        (ipcThen (writePayloadStage net) (readResponseStage net)))

/-- The error code of a result, if any. -/
def errCode : Except IpcError Unit → Option String
  | Except.error e => some e.code
  | Except.ok _ => none

/-- C3: a request whose serialized payload exceeds 10 MiB performs no socket
operation at all and is rejected with the size-limit error
`REQUEST_TOO_LARGE`; and whenever the response's 4-byte big-endian length
header decodes to more than 1 MiB, the body is never read (`readBody` is not
among the performed operations) and, if the call got as far as reading the
header, it returns the `PAYLOAD_TOO_LARGE` error. -/
theorem ipc_size_limits (net : NetBehavior) (payload_size : ℕ)
    (b : ℕ × ℕ × ℕ × ℕ) (hb : net.read_header = some b)
    (hlen : MAX_RESPONSE_SIZE < u32_be b) :
    (MAX_REQUEST_SIZE < payload_size →
      (send_json_request net payload_size).1 = [] ∧
      errCode (send_json_request net payload_size).2 =
        some "REQUEST_TOO_LARGE") ∧
    SocketOp.readBody ∉ (send_json_request net payload_size).1 ∧
    (SocketOp.readHeader ∈ (send_json_request net payload_size).1 →
      errCode (send_json_request net payload_size).2 =
        some "PAYLOAD_TOO_LARGE") := by
  by_cases hp : MAX_REQUEST_SIZE < payload_size
  · simp [send_json_request, hp, errCode]
  · rcases net with ⟨ac, co, sto, who, rco, stro, whro, wpo, rh, rbo, po, ss, de⟩
    simp only at hb
    subst hb
    refine ⟨fun h => absurd h hp, ?_⟩
    cases ac <;> cases co <;> cases sto <;> cases who <;> cases rco <;>
      cases stro <;> cases whro <;> cases wpo <;>
      simp [send_json_request, hp, ensureConnected, writeHeaderStage,
        writePayloadStage, readResponseStage, ipcThen, errCode, hlen]

/-- An oracle whose response header announces about 10.5 MiB. -/
def demoNet : NetBehavior :=
  { already_connected := true
    connect_ok := true
    set_timeout_ok := true
    write_header_ok := true
    reconnect_ok := true
    set_timeout_retry_ok := true
    write_header_retry_ok := true
    write_payload_ok := true
    read_header := some (0, 160, 0, 1)
    read_body_ok := true
    parse_ok := true
    status_success := true
    daemon_error := "" }

theorem ipc_size_limits_witness :
    ((MAX_REQUEST_SIZE < 42 →
      (send_json_request demoNet 42).1 = [] ∧
      errCode (send_json_request demoNet 42).2 = some "REQUEST_TOO_LARGE") ∧
    SocketOp.readBody ∉ (send_json_request demoNet 42).1 ∧
    (SocketOp.readHeader ∈ (send_json_request demoNet 42).1 →
      errCode (send_json_request demoNet 42).2 =
        some "PAYLOAD_TOO_LARGE")) :=
  ipc_size_limits demoNet 42 (0, 160, 0, 1) rfl (by decide)

/-! ## Socket path resolution (apps/frontend src-tauri lib.rs) -/

/-- The environment `socket_path` consults. -/
structure SocketEnv where
  v2m_socket_path : Option String
  xdg_runtime_dir : Option String
  uid : ℕ
  dir_exists : Bool
  metadata_ok : Bool
  dir_owner_uid : ℕ

/-- The observable outcome of `socket_path`: the resolved path, whether the
SECURITY ERROR line was printed, and whether the process aborted. -/
structure SocketPathResult where
  path : String
  security_error_logged : Bool
  aborted : Bool
deriving DecidableEq, Repr

/-- `socket_path` (frontend lib.rs lines 16-55): `V2M_SOCKET_PATH` wins
outright; otherwise the directory is `$XDG_RUNTIME_DIR/v2m` or
`/tmp/v2m_<uid>`.  When the directory exists and its metadata shows an owner
uid different from the current uid, the code prints a SECURITY ERROR to
stderr — and then falls through, appending `v2m.sock` to that same
directory.  (When the directory does not exist it is created with mode 0700;
those filesystem writes have no bearing on the result modelled here.) -/
def socket_path (env : SocketEnv) : SocketPathResult :=
  match env.v2m_socket_path with
  | some p => { path := p, security_error_logged := false, aborted := false }
  | none =>
    let dir :=
      match env.xdg_runtime_dir with
      | some xdg => xdg ++ "/v2m"
      | none => "/tmp/v2m_" ++ toString env.uid
    let logged := env.dir_exists && env.metadata_ok &&
      decide (env.dir_owner_uid ≠ env.uid)
    { path := dir ++ "/v2m.sock", security_error_logged := logged,
      aborted := false }

/-- C7: contrary to the claim, `socket_path` never aborts — `aborted = false`
for every environment — and on the failing input (an existing runtime
directory owned by uid 0 while the process runs as uid 1000) it logs the
security error yet still resolves the socket path inside the foreign-owned
directory, which `send_json_request` then connects through. -/
theorem socket_path_never_aborts :
    (∀ env : SocketEnv, (socket_path env).aborted = false) ∧
    socket_path
        { v2m_socket_path := none
          xdg_runtime_dir := some "/run/user/1000"
          uid := 1000
          dir_exists := true
          metadata_ok := true
          dir_owner_uid := 0 } =
      { path := "/run/user/1000/v2m/v2m.sock"
        security_error_logged := true
        aborted := false } := by
  refine ⟨?_, by decide⟩
  intro env
  rcases env with ⟨v, x, u, de, mo, ou⟩
  cases v <;> rfl

end V2M
